import Mathlib

/-!
Verification development for the Optimizi e-commerce core: the stock ledger
(product service), the master-order / sub-order synchronizer, the change-feed
notification trigger and the supplier notification dispatcher, shallowly
embedded from the TypeScript sources.

Modelling conventions:
* Firestore collections are association lists of documents, each document
  carrying its own `id`; `getDoc` is first-match lookup by id and `updateDoc`
  is a field-merging map over the matching documents.
* JavaScript numbers that the code forces through `Number(...)` are modelled
  as `Int`; a stored field value that is a truthy non-numeric (so that
  `Number(x)` is `NaN`) is the constructor `RawVal.nonNumeric`, and a missing
  field is `Option.none`.  Falsy non-numeric stored values behave exactly like
  the number 0 on every code path modelled here, so they are represented by
  `RawVal.num 0`.
* ISO timestamps produced by `new Date().toISOString()` are opaque strings
  passed in as a `now` parameter; `createdAt` values that the code sorts by
  are modelled by their millisecond value (an `Int`).
* Asynchronous sequences of awaits are modelled as sequential execution.
-/

namespace Optimizi

/-- Raw value of a numeric Firestore field: either an actual number, or a
truthy non-numeric value on which JavaScript `Number` yields `NaN`. -/
inductive RawVal where
  | num (n : Int)
  | nonNumeric
deriving DecidableEq, Repr

/-- `Number(x) || 0` applied to an optionally present field `x`: a missing
field or a non-numeric value (`NaN`) collapses to `0`. Used by the stock
decrement code (`const currentStock = Number(productData.stockQuantity) || 0`). -/
def coerceDec : Option RawVal → Int
  | some (RawVal.num n) => n
  | _ => 0

/-- `Number(x || 0)` applied to an optionally present field `x`: a missing
field becomes `0`, but a truthy non-numeric value becomes `NaN`, modelled as
`none`.  Used by the product listing code
(`const stockQuantity = Number(data.stockQuantity || 0)`). -/
def coerceListing : Option RawVal → Option Int
  | none => some 0
  | some (RawVal.num n) => some n
  | some RawVal.nonNumeric => none

/-- JavaScript `a || b` for an optionally present string `a`: a missing or
empty (falsy) string falls back to the default. -/
def jsOr : Option String → String → String
  | some s, d => if s = "" then d else s
  | none, d => d

/-- `getDoc` on a collection: first document whose id field matches. -/
def findById (key : α → String) (l : List α) (k : String) : Option α :=
  l.find? (fun x => key x == k)

/-- `updateDoc` on a collection: merge fields (apply `f`) into the documents
whose id field matches. -/
def updateById (key : α → String) (l : List α) (k : String) (f : α → α) : List α :=
  l.map (fun x => if key x == k then f x else x)

/-- JavaScript `s.slice(-8)`: the trailing 8 characters (the whole string when
it is shorter). -/
def sliceLast8 (s : String) : String :=
  String.mk (s.data.drop (s.data.length - 8))

/-- JavaScript `s.toUpperCase()` for the ASCII order numbers and statuses at
hand, character by character.  (`String.toUpper` itself is defined by
well-founded recursion over byte positions and does not reduce inside the
kernel, so the character-list form is used throughout.) -/
def jsToUpperCase (s : String) : String :=
  String.mk (s.data.map Char.toUpper)

/-- JavaScript `s.split('-')` as a list of character lists. -/
def splitDashChars : List Char → List (List Char)
  | [] => [[]]
  | c :: cs =>
    match splitDashChars cs with
    | [] => [[]]
    | h :: t => if c = '-' then [] :: h :: t else (c :: h) :: t

/-- JavaScript `s.split('-')`. -/
def jsSplitDash (s : String) : List String :=
  (splitDashChars s.data).map (fun l => String.mk l)

/-- The characters of `s` before the first `'-'` (value of `s.split('-')[0]`). -/
def headUpToDash (s : String) : String :=
  String.mk (s.data.takeWhile (fun c => c != '-'))

end Optimizi

namespace Optimizi.ProductService

/-- A document of the `products` collection, restricted to the fields the
verified core reads or writes.  The remaining catalog fields (prices, tags,
images, reviews, ...) are copied verbatim by the listing code and written by
none of the code modelled here, so they do not affect any property below. -/
structure ProductDoc where
  id : String
  stockRaw : Option RawVal
  updatedAt : String
  nameField : Option String
  title : Option String
  productName : Option String
  categoryId : Option String
  fournisseurId : Option String
  feature : Bool
deriving DecidableEq, Repr

/-- A line of a stock decrement request: `{productId, quantity}`. -/
structure StockItem where
  productId : String
  quantity : Int
deriving DecidableEq, Repr

/-- `decrementProductStock(productId, quantity)`: missing product or
insufficient stock returns `false` with no write; otherwise writes
`stockQuantity := current - quantity` and refreshes `updatedAt`. -/
def decrementProductStock (ps : List ProductDoc) (productId : String) (quantity : Int)
    (now : String) : Bool × List ProductDoc :=
  match findById (fun p => p.id) ps productId with
  | none => (false, ps)
  | some productData =>
    let currentStock := coerceDec productData.stockRaw
    if currentStock < quantity then (false, ps)
    else
      let newStock := currentStock - quantity
      (true, updateById (fun p => p.id) ps productId
        (fun p => { p with stockRaw := some (RawVal.num newStock), updatedAt := now }))

/-- Validation of one line of `decrementMultipleProductsStock` against the
pre-state: the pushed error message, or the write to stage. -/
def checkItem (ps : List ProductDoc) (item : StockItem) : Except String (String × Int) :=
  match findById (fun p => p.id) ps item.productId with
  | none => Except.error ("Product " ++ item.productId ++ " not found")
  | some productData =>
    let currentStock := coerceDec productData.stockRaw
    if currentStock < item.quantity then
      Except.error ("Insufficient stock for " ++ item.productId)
    else
      Except.ok (item.productId, currentStock - item.quantity)

/-- Projection of a line check onto its pushed error message, if any. -/
def errOf : Except String (String × Int) → Option String
  | Except.error e => some e
  | Except.ok _ => none

/-- One `batch.update` staged by a successful line check: write the staged
`stockQuantity` and refresh `updatedAt` on the checked product. -/
def applyCheck (now : String) (acc : List ProductDoc) (c : Except String (String × Int)) :
    List ProductDoc :=
  match c with
  | Except.ok (pid, newStock) =>
      updateById (fun p => p.id) acc pid
        (fun p => { p with stockRaw := some (RawVal.num newStock), updatedAt := now })
  | Except.error _ => acc

/-- `decrementMultipleProductsStock(items)`: validate every line against the
current state, return `success=false` with the collected errors before any
write when at least one line failed, otherwise apply all staged writes
(a single committed batch). -/
def decrementMultipleProductsStock (ps : List ProductDoc) (items : List StockItem)
    (now : String) : (Bool × List String) × List ProductDoc :=
  let productChecks := items.map (checkItem ps)
  let errors := productChecks.filterMap errOf
  if errors.length > 0 then ((false, errors), ps)
  else ((true, []), productChecks.foldl (applyCheck now) ps)

/-- A document of the `Fournisseurs` collection as the enrichment step uses it. -/
structure Fournisseur where
  id : String
  name : String
deriving DecidableEq, Repr

/-- A storefront `Product` value as built by the listing functions, restricted
to the fields relevant here; `stockQuantity` is `none` when the raw field
coerced to `NaN`. -/
structure Product where
  id : String
  name : String
  categoryId : String
  fournisseurId : String
  stockQuantity : Option Int
  feature : Bool
  fournisseurName : String
deriving DecidableEq, Repr

/-- The object pushed for each document snapshot by the listing functions. -/
def buildProduct (d : ProductDoc) : Product :=
  { id := d.id
    name := jsOr d.nameField (jsOr d.title (jsOr d.productName ""))
    categoryId := jsOr d.categoryId ""
    fournisseurId := jsOr d.fournisseurId ""
    stockQuantity := coerceListing d.stockRaw
    feature := d.feature
    fournisseurName := "" }

/-- `p.stockQuantity > 0` under JavaScript comparison; `NaN > 0` is `false`. -/
def gtZero : Option Int → Bool
  | some n => decide (0 < n)
  | none => false

/-- `enrichProductsWithFournisseurNames`: a `Map` from fournisseur id to name
(later entries overwrite earlier ones) resolves each product's
`fournisseurName`, defaulting to `"Fournisseur inconnu"` for an absent or
falsy name. -/
def enrichProductsWithFournisseurNames (fournisseurs : List Fournisseur)
    (products : List Product) : List Product :=
  products.map (fun product =>
    { product with fournisseurName :=
        match findById (fun f => f.id) fournisseurs.reverse product.fournisseurId with
        | some f => if f.name = "" then "Fournisseur inconnu" else f.name
        | none => "Fournisseur inconnu" })

/-- `getProducts()`: build all products, keep those with `stockQuantity > 0`,
enrich with fournisseur names. -/
def getProducts (docs : List ProductDoc) (fournisseurs : List Fournisseur) : List Product :=
  let products := docs.map buildProduct
  let inStockProducts := products.filter (fun p => gtZero p.stockQuantity)
  enrichProductsWithFournisseurNames fournisseurs inStockProducts

/-- `getProductsByCategory(categoryId)`: the query filters on the raw
`categoryId` field, then the same build / in-stock filter / enrichment. -/
def getProductsByCategory (docs : List ProductDoc) (fournisseurs : List Fournisseur)
    (categoryId : String) : List Product :=
  let queried := docs.filter (fun d => d.categoryId == some categoryId)
  let products := queried.map buildProduct
  let inStockProducts := products.filter (fun p => gtZero p.stockQuantity)
  enrichProductsWithFournisseurNames fournisseurs inStockProducts

/-- `getFeaturedProducts()`: the query filters on `feature == true`, then the
same build / in-stock filter / enrichment. -/
def getFeaturedProducts (docs : List ProductDoc) (fournisseurs : List Fournisseur) :
    List Product :=
  let queried := docs.filter (fun d => d.feature)
  let products := queried.map buildProduct
  let inStockProducts := products.filter (fun p => gtZero p.stockQuantity)
  enrichProductsWithFournisseurNames fournisseurs inStockProducts

end Optimizi.ProductService

namespace Optimizi.MasterOrderService

open Optimizi.ProductService

/-- A document of the `subOrders` collection, restricted to the fields read or
written by the synchronizer.  `createdAt` is the millisecond value of the ISO
timestamp, used only for sorting. -/
structure SubOrderDoc where
  id : String
  masterOrderId : String
  fournisseurId : String
  fournisseurName : String
  items : List StockItem
  status : String
  paymentStatus : String
  createdAt : Int
  updatedAt : String
  confirmedAt : Option String
  deliveredAt : Option String
deriving DecidableEq, Repr

/-- A document of the `masterOrders` collection, restricted to the fields read
or written by the synchronizer. -/
structure MasterOrderDoc where
  id : String
  status : String
  paymentStatus : String
  userEmail : String
  userName : String
  updatedAt : String
  confirmedAt : Option String
  deliveredAt : Option String
deriving DecidableEq, Repr

/-- The document store state touched by the order services. -/
structure SysState where
  products : List ProductDoc
  subOrders : List SubOrderDoc
  masterOrders : List MasterOrderDoc
deriving DecidableEq, Repr

/-- A customer email POSTed to the mail relay by the synchronizer (only the
routing fields; the long message body is inert string rendering). -/
structure EmailEvt where
  toEmail : String
  subject : String
deriving DecidableEq, Repr

/-- Observable side effects of one `updateSubOrderStatus` call:
how many times the stock decrement was invoked, the customer emails emitted
by the master sync, and the in-app notification rows created. -/
structure UpdTrace where
  decrementInvocations : Nat
  emails : List EmailEvt
  orderNotifs : Nat
  payNotifs : Nat
deriving DecidableEq, Repr

/-- Stable insertion (matching the stable JavaScript `Array.sort` with
comparator `dateA - dateB`): an element goes after every earlier element whose
`createdAt` is not larger. -/
def insertByCreatedAt (x : SubOrderDoc) : List SubOrderDoc → List SubOrderDoc
  | [] => [x]
  | y :: ys => if y.createdAt ≤ x.createdAt then y :: insertByCreatedAt x ys else x :: y :: ys

/-- In-memory sort of the fetched sub-orders by `createdAt` ascending. -/
def sortByCreatedAt (l : List SubOrderDoc) : List SubOrderDoc :=
  l.foldl (fun acc x => insertByCreatedAt x acc) []

/-- `getSubOrdersByMasterOrderId`: query by the `masterOrderId` field, then
sort by `createdAt` in memory. -/
def getSubOrdersByMasterOrderId (subs : List SubOrderDoc) (masterOrderId : String) :
    List SubOrderDoc :=
  sortByCreatedAt (subs.filter (fun s => s.masterOrderId == masterOrderId))

/-- `statuses.every(status => status === statuses[0])`. -/
def allSameHead : List String → Bool
  | [] => true
  | s :: rest => (s :: rest).all (fun x => x == s)

/-- The field merge performed by the master order `updateDoc`: `updatedAt`
always; `status` (plus the `confirmedAt` / `deliveredAt` stamps) only when the
sub-order statuses are unanimous; `paymentStatus` only when the payment
statuses are unanimous. -/
def masterUpdate (allStatusesSame allPaymentStatusesSame : Bool) (s0 p0 now : String)
    (x : MasterOrderDoc) : MasterOrderDoc :=
  { x with
    updatedAt := now
    status := if allStatusesSame then s0 else x.status
    confirmedAt :=
      if allStatusesSame && s0 == "confirmed" then some now else x.confirmedAt
    deliveredAt :=
      if allStatusesSame && s0 == "delivered" then some now else x.deliveredAt
    paymentStatus := if allPaymentStatusesSame then p0 else x.paymentStatus }

/-- The best-effort customer email POSTed after a master order update: only
when the master order carries a `userEmail` and a backend URL is configured;
the subject names the written status and/or payment status. -/
def clientEmailEvts (allStatusesSame allPaymentStatusesSame : Bool) (s0 p0 : String)
    (m : MasterOrderDoc) (backendUrl masterOrderId : String) : List EmailEvt :=
  if m.userEmail != "" && backendUrl != "" then
    let orderNumber := jsToUpperCase (sliceLast8 masterOrderId)
    let subjectParts :=
      (if allStatusesSame && s0 != "" then ["Statut: " ++ s0] else []) ++
      (if allPaymentStatusesSame && p0 != "" then ["Paiement: " ++ p0] else [])
    let joined := String.intercalate " | " subjectParts
    [{ toEmail := m.userEmail
       subject := "Mise à jour commande #" ++ orderNumber ++ " — " ++
         (if joined = "" then "Mise à jour" else joined) }]
  else []

/-- `syncMasterOrderStatus(masterOrderId)`: no-op when the master order has no
sub-orders; otherwise update the master order's status when the sub-order
statuses are unanimous and its payment status when the payment statuses are
unanimous, refreshing `updatedAt` and stamping `confirmedAt` / `deliveredAt`;
afterwards POST a best-effort customer email when the master order carries a
`userEmail` and a mail backend is configured.  `updateDoc` on a missing
master document rejects, surfacing as the caught-and-rethrown sync error. -/
def syncMasterOrderStatus (backendUrl : String) (st : SysState) (masterOrderId : String)
    (now : String) : Except String (SysState × List EmailEvt) :=
  let subOrders := getSubOrdersByMasterOrderId st.subOrders masterOrderId
  if subOrders.isEmpty then Except.ok (st, [])
  else
    let statuses := subOrders.map (fun o => o.status)
    let paymentStatuses := subOrders.map (fun o => o.paymentStatus)
    let allStatusesSame := allSameHead statuses
    let allPaymentStatusesSame := allSameHead paymentStatuses
    if allStatusesSame || allPaymentStatusesSame then
      match findById (fun m => m.id) st.masterOrders masterOrderId with
      | none => Except.error "Failed to sync master order status"
      | some m =>
        let s0 := statuses.headD ""
        let p0 := paymentStatuses.headD ""
        let newMasters := updateById (fun x => x.id) st.masterOrders masterOrderId
          (masterUpdate allStatusesSame allPaymentStatusesSame s0 p0 now)
        let st' : SysState := { st with masterOrders := newMasters }
        Except.ok (st',
          clientEmailEvts allStatusesSame allPaymentStatusesSame s0 p0 m backendUrl masterOrderId)
    else Except.ok (st, [])

/-- The stock-decrement trigger condition of `updateSubOrderStatus`. -/
def shouldDecrementStock (status previousStatus : String) : Bool :=
  status == "out_for_delivery" && previousStatus != "out_for_delivery"

/-- The field merge performed by the `updateDoc` of `updateSubOrderStatus`:
always `status` and `updatedAt`; `paymentStatus` only when a truthy value was
passed; `confirmedAt` / `deliveredAt` stamped on the respective statuses. -/
def applySubOrderUpdateData (status : String) (paymentStatus : Option String) (now : String)
    (s : SubOrderDoc) : SubOrderDoc :=
  { s with
    status := status
    updatedAt := now
    paymentStatus :=
      match paymentStatus with
      | some p => if p = "" then s.paymentStatus else p
      | none => s.paymentStatus
    confirmedAt := if status == "confirmed" then some now else s.confirmedAt
    deliveredAt := if status == "delivered" then some now else s.deliveredAt }

/-- `currentSubOrder.items.map(item => ({productId: item.productId, quantity:
item.quantity}))`. -/
def stockItemsOf (s : SubOrderDoc) : List StockItem :=
  s.items.map (fun item => { productId := item.productId, quantity := item.quantity })

/-- The writes performed by `updateSubOrderStatus` before the master sync:
invoke the batch stock decrement exactly when the trigger condition holds
(continuing with the resulting product state regardless of the reported
outcome), and merge the status update into the sub-order document.  Returns
the written state and the number of stock-decrement invocations. -/
def updateSubOrderWrites (st : SysState) (subOrderId status : String)
    (paymentStatus : Option String) (now : String) (currentSubOrder : SubOrderDoc) :
    SysState × Nat :=
  let previousStatus := currentSubOrder.status
  let dec : List ProductDoc × Nat :=
    if shouldDecrementStock status previousStatus then
      ((decrementMultipleProductsStock st.products (stockItemsOf currentSubOrder) now).2, 1)
    else (st.products, 0)
  ({ st with
     products := dec.1
     subOrders := updateById (fun s => s.id) st.subOrders subOrderId
       (applySubOrderUpdateData status paymentStatus now) }, dec.2)

/-- Body of `updateSubOrderStatus` before its outer `try/catch`: fetch the
sub-order (throwing when missing), perform the stock decrement and status
write, count the status / payment change notifications, then sync the master
order. -/
def updateSubOrderStatusCore (backendUrl : String) (st : SysState) (subOrderId status : String)
    (paymentStatus : Option String) (now : String) : Except String (SysState × UpdTrace) :=
  match findById (fun s => s.id) st.subOrders subOrderId with
  | none => Except.error "SubOrder not found"
  | some currentSubOrder =>
    let written := updateSubOrderWrites st subOrderId status paymentStatus now currentSubOrder
    let orderNotifs := if status != currentSubOrder.status then 1 else 0
    let payNotifs :=
      match paymentStatus with
      | some p => if p != "" && p != currentSubOrder.paymentStatus then 1 else 0
      | none => 0
    match syncMasterOrderStatus backendUrl written.1 currentSubOrder.masterOrderId now with
    | Except.error e => Except.error e
    | Except.ok (st₂, emails) =>
      Except.ok (st₂,
        { decrementInvocations := written.2
          emails := emails
          orderNotifs := orderNotifs
          payNotifs := payNotifs })

/-- `updateSubOrderStatus`: any error escaping the body is caught and
rethrown as `Failed to update order status`. -/
def updateSubOrderStatus (backendUrl : String) (st : SysState) (subOrderId status : String)
    (paymentStatus : Option String) (now : String) : Except String (SysState × UpdTrace) :=
  match updateSubOrderStatusCore backendUrl st subOrderId status paymentStatus now with
  | Except.ok r => Except.ok r
  | Except.error _ => Except.error "Failed to update order status"

end Optimizi.MasterOrderService

namespace Optimizi.OrderNotificationTrigger

/-- Kind of a change-feed event. -/
inductive ChangeType where
  | added
  | modified
  | removed
deriving DecidableEq, Repr

/-- A change-feed event's document snapshot, restricted to the fields the
trigger reads. -/
structure ChangeDoc where
  typ : ChangeType
  id : String
  status : String
  paymentStatus : String
  fournisseurId : String
  userName : String
deriving DecidableEq, Repr

/-- A document of the `notificationLogs` collection (the fields the dedup
query filters on; the analytics echoes are inert). -/
structure NotifLogEntry where
  orderId : String
  fournisseurId : String
  eventType : String
  notificationStatus : String
deriving DecidableEq, Repr

/-- A document of the `processedOrderStates` collection. -/
structure ProcessedEntry where
  orderId : String
  status : String
  paymentStatus : String
  fournisseurId : String
deriving DecidableEq, Repr

/-- The state the trigger reads and writes: the two ledger collections, the
in-app notification rows (by order id) and the in-memory per-supplier
last-processed timestamps. -/
structure TriggerState where
  notificationLogs : List NotifLogEntry
  processedOrderStates : List ProcessedEntry
  inAppNotifications : List String
  lastProcessedTimestamp : List (String × Int)
deriving DecidableEq, Repr

/-- Observable actions of processing one change, in execution order. -/
inductive TrigAction where
  | markProcessed (orderKey fournisseurId : String)
  | sendMail (orderId : String)
  | writeLog (orderId eventType notificationStatus : String)
  | writeInApp (orderId : String)
deriving DecidableEq, Repr

/-- The composite key `` `${orderData.id}-${orderData.status}-${orderData.paymentStatus}` ``. -/
def orderKeyOf (c : ChangeDoc) : String :=
  c.id ++ "-" ++ c.status ++ "-" ++ c.paymentStatus

/-- `checkIfAlreadyProcessed(orderKey, fournisseurId)`: query `notificationLogs`
for `orderId == orderKey.split('-')[0]`, the supplier, and an eventType among
`new_order` / `status_update`; any hit means already processed. -/
def checkIfAlreadyProcessed (logs : List NotifLogEntry) (orderKey fournisseurId : String) :
    Bool :=
  let oid := (jsSplitDash orderKey).headD ""
  logs.any (fun l =>
    l.orderId == oid && l.fournisseurId == fournisseurId &&
      (l.eventType == "new_order" || l.eventType == "status_update"))

/-- `markAsProcessed(orderKey, fournisseurId)`: destructure the key on `'-'`
(a missing component is `undefined`, modelled as `""`) and append a
`processedOrderStates` document. -/
def markAsProcessed (ps : List ProcessedEntry) (orderKey fournisseurId : String) :
    List ProcessedEntry :=
  let parts := jsSplitDash orderKey
  ps ++ [{ orderId := parts.getD 0 ""
           status := parts.getD 1 ""
           paymentStatus := parts.getD 2 ""
           fournisseurId := fournisseurId }]

/-- The `notificationLogs` document written by `logNotificationEvent`. -/
def mkLogEntry (c : ChangeDoc) (eventType notificationStatus : String) : NotifLogEntry :=
  { orderId := c.id
    fournisseurId := c.fournisseurId
    eventType := eventType
    notificationStatus := notificationStatus }

/-- Processing of one change inside the snapshot callback: consult the dedup
query and skip when it hits; otherwise mark the state processed first, then
for an added (resp. modified) change invoke the mail send, write one
`new_order` (resp. `status_update`) log entry recording the send outcome, and
create one in-app notification row.  `sendOk` is the outcome of the
asynchronous mail-send invocation. -/
def processChange (sendOk : Bool) (st : TriggerState) (c : ChangeDoc) :
    TriggerState × List TrigAction :=
  let orderKey := orderKeyOf c
  if checkIfAlreadyProcessed st.notificationLogs orderKey c.fournisseurId then (st, [])
  else
    let st₁ : TriggerState :=
      { st with processedOrderStates := markAsProcessed st.processedOrderStates orderKey c.fournisseurId }
    let markAct := TrigAction.markProcessed orderKey c.fournisseurId
    match c.typ with
    | ChangeType.added =>
      let logStatus := if sendOk then "success" else "failed"
      let st₂ : TriggerState :=
        { st₁ with
          notificationLogs := st₁.notificationLogs ++ [mkLogEntry c "new_order" logStatus]
          inAppNotifications := st₁.inAppNotifications ++ [c.id] }
      (st₂, [markAct, TrigAction.sendMail c.id,
             TrigAction.writeLog c.id "new_order" logStatus, TrigAction.writeInApp c.id])
    | ChangeType.modified =>
      let logStatus := if sendOk then "success" else "failed"
      let st₂ : TriggerState :=
        { st₁ with
          notificationLogs := st₁.notificationLogs ++ [mkLogEntry c "status_update" logStatus]
          inAppNotifications := st₁.inAppNotifications ++ [c.id] }
      (st₂, [markAct, TrigAction.sendMail c.id,
             TrigAction.writeLog c.id "status_update" logStatus, TrigAction.writeInApp c.id])
    | ChangeType.removed => (st₁, [markAct])

/-- `Map.set` on the in-memory timestamp map. -/
def setTimestamp (l : List (String × Int)) (k : String) (v : Int) : List (String × Int) :=
  if l.any (fun p => p.1 == k) then l.map (fun p => if p.1 == k then (k, v) else p)
  else l ++ [(k, v)]

/-- The snapshot callback installed by `initializeOrderMonitoring`: when the
batch arrives within 2000 ms of the supplier's previously processed batch it
is dropped whole; otherwise the timestamp is refreshed and every change in
the batch is processed in order. -/
def handleSnapshot (sendOk : Bool) (fournisseurId : String) (currentTime : Int)
    (changes : List ChangeDoc) (st : TriggerState) : TriggerState × List TrigAction :=
  let lastProcessed := ((findById (fun p => p.1) st.lastProcessedTimestamp fournisseurId).map
    (fun p => p.2)).getD 0
  if currentTime - lastProcessed < 2000 then (st, [])
  else
    let st₀ : TriggerState :=
      { st with lastProcessedTimestamp := setTimestamp st.lastProcessedTimestamp fournisseurId currentTime }
    changes.foldl (fun acc c =>
      let r := processChange sendOk acc.1 c
      (r.1, acc.2 ++ r.2)) (st₀, [])

/-- Whether an action is a mail-send invocation. -/
def isSendMail : TrigAction → Bool
  | TrigAction.sendMail _ => true
  | _ => false

/-- Number of mail-send invocations in a trace. -/
def countSendMail (t : List TrigAction) : Nat :=
  (t.filter isSendMail).length

end Optimizi.OrderNotificationTrigger

namespace Optimizi.SupplierNotificationService

/-- The supplier-side order value consumed by the notification dispatcher,
restricted to the fields steering control flow and the subject line.
Monetary amounts are modelled as whole currency units. -/
structure NotifOrder where
  id : String
  fournisseurId : String
  userName : String
  userEmail : String
  status : String
  paymentStatus : String
  total : Int
deriving DecidableEq, Repr

/-- A document of the `Fournisseurs` collection (the dispatcher's fields). -/
structure SupplierDoc where
  id : String
  ownerId : String
  name : Option String
deriving DecidableEq, Repr

/-- A document of the `users` collection (the dispatcher's fields). -/
structure UserDoc where
  uid : String
  email : String
  fullName : Option String
deriving DecidableEq, Repr

/-- The resolved supplier contact information. -/
structure SupplierInfo where
  email : String
  name : String
  businessName : String
deriving DecidableEq, Repr

/-- The dispatcher's environment: the two lookup collections, the configured
backend URL, and whether the mail relay accepts the POST. -/
structure NotifEnv where
  suppliers : List SupplierDoc
  users : List UserDoc
  backendUrl : String
  backendAccepts : Bool
deriving DecidableEq, Repr

/-- Observable side effects of `sendOrderNotification`. -/
inductive NotifEvt where
  | inApp (orderId : String)
  | log (orderId notificationStatus : String)
deriving DecidableEq, Repr

/-- `getSupplierInfo(fournisseurId)`: resolve the supplier document and then
its owner's user document; either being missing yields `null`. -/
def getSupplierInfo (suppliers : List SupplierDoc) (users : List UserDoc)
    (fournisseurId : String) : Option SupplierInfo :=
  match findById (fun s => s.id) suppliers fournisseurId with
  | none => none
  | some supplierData =>
    match findById (fun u => u.uid) users supplierData.ownerId with
    | none => none
    | some userData =>
      some { email := userData.email
             name := jsOr userData.fullName "Supplier"
             businessName := jsOr supplierData.name "Business" }

/-- `getPriorityPrefix(status)`. -/
def priorityPrefixOf (status : String) : String :=
  if status == "pending" || status == "cancelled" then "[URGENT] " else ""

/-- `getStatusEmoji(status)` with its `'📋'` fallback. -/
def getStatusEmoji (status : String) : String :=
  let emojiMap : List (String × String) :=
    [("pending", "🆕"), ("confirmed", "✅"), ("preparing", "👨‍🍳"),
     ("out_for_delivery", "🚚"), ("delivered", "🎉"), ("cancelled", "❌")]
  jsOr ((findById (fun p => p.1) emojiMap status).map (fun p => p.2)) "📋"

/-- `n.toFixed(2)` for an amount modelled as whole currency units. -/
def jsToFixed2 (n : Int) : String :=
  toString n ++ ".00"

/-- `generateEmailSubject(order, orderNumber)`: a fixed template per
recognized status, and the generic
`` `${statusEmoji} COMMANDE #${orderNumber} - ${order.status.toUpperCase()}` ``
fallback for any other status. -/
def generateEmailSubject (order : NotifOrder) (orderNumber : String) : String :=
  let pr := priorityPrefixOf order.status
  let em := getStatusEmoji order.status
  let total := jsToFixed2 order.total
  let subjectTemplates : List (String × String) :=
    [("pending", pr ++ em ++ " NOUVELLE COMMANDE #" ++ orderNumber ++ " - " ++
        order.userName ++ " - TND" ++ total),
     ("confirmed", em ++ " COMMANDE CONFIRMÉE #" ++ orderNumber ++ " - Préparation requise"),
     ("preparing", em ++ " EN PRÉPARATION #" ++ orderNumber ++ " - " ++ order.userName),
     ("out_for_delivery", em ++ " EN LIVRAISON #" ++ orderNumber ++ " - Suivi requis"),
     ("delivered", em ++ " LIVRÉE #" ++ orderNumber ++ " - Succès confirmé"),
     ("cancelled", pr ++ em ++ " ANNULÉE #" ++ orderNumber ++ " - Action requise")]
  jsOr ((findById (fun p => p.1) subjectTemplates order.status).map (fun p => p.2))
    (em ++ " COMMANDE #" ++ orderNumber ++ " - " ++ jsToUpperCase order.status)

/-- `sendEmailViaBackend(...)`: `false` when no backend URL is configured,
otherwise the relay's accept/reject outcome. -/
def sendEmailViaBackend (env : NotifEnv) : Bool :=
  if env.backendUrl = "" then false else env.backendAccepts

/-- `sendOrderNotification(order)`: resolve the supplier contact (hard
failure when unresolvable, before any send or log), render the email content
(the subject; the text/html bodies are inert string rendering with no control
flow), send via the backend, then on success create one in-app notification
and log `success`, and on failure log `failed`. -/
def sendOrderNotification (env : NotifEnv) (order : NotifOrder) : Bool × List NotifEvt :=
  match getSupplierInfo env.suppliers env.users order.fournisseurId with
  | none => (false, [])
  | some _supplierInfo =>
    let orderNumber := jsToUpperCase (sliceLast8 order.id)
    let _subject := generateEmailSubject order orderNumber
    let success := sendEmailViaBackend env
    if success then
      (true, [NotifEvt.inApp order.id, NotifEvt.log order.id "success"])
    else
      (false, [NotifEvt.log order.id "failed"])

end Optimizi.SupplierNotificationService

/-! ## Concrete example data used by the closed instances below -/

namespace Optimizi

open ProductService MasterOrderService OrderNotificationTrigger SupplierNotificationService

/-- Product A: 10 units in stock. -/
def exPA : ProductDoc :=
  { id := "A", stockRaw := some (RawVal.num 10), updatedAt := "t0",
    nameField := some "Apple", title := none, productName := none,
    categoryId := some "c1", fournisseurId := some "F1", feature := true }

/-- Product B: 3 units in stock. -/
def exPB : ProductDoc :=
  { id := "B", stockRaw := some (RawVal.num 3), updatedAt := "t0",
    nameField := none, title := some "Banana", productName := none,
    categoryId := some "c1", fournisseurId := some "F1", feature := false }

/-- A product whose stock field holds a truthy non-numeric value. -/
def exPN : ProductDoc :=
  { id := "N", stockRaw := some RawVal.nonNumeric, updatedAt := "t0",
    nameField := some "Noise", title := none, productName := none,
    categoryId := some "c1", fournisseurId := some "F1", feature := true }

/-- A product whose stock field is missing. -/
def exPM : ProductDoc :=
  { id := "M", stockRaw := none, updatedAt := "t0",
    nameField := some "MissingStock", title := none, productName := none,
    categoryId := some "c1", fournisseurId := some "F1", feature := true }

/-- A product with zero stock. -/
def exPZ : ProductDoc :=
  { id := "Z", stockRaw := some (RawVal.num 0), updatedAt := "t0",
    nameField := some "Zero", title := none, productName := none,
    categoryId := some "c1", fournisseurId := some "F1", feature := true }

def exC1products : List ProductDoc := [exPA, exPB]

def exC1items : List StockItem := [⟨"A", 5⟩, ⟨"B", 20⟩]

def exC5products : List ProductDoc := [exPA, exPB, exPN, exPM, exPZ]

def exC10docs : List ProductDoc := [exPA, exPZ, exPM, exPN]

def exC10fournisseurs : List Fournisseur := [⟨"F1", "Biz"⟩]

/-- The single product `getProducts` returns on `exC10docs`. -/
def exC10q : Product :=
  { id := "A", name := "Apple", categoryId := "c1", fournisseurId := "F1",
    stockQuantity := some 10, feature := true, fournisseurName := "Biz" }

def exC2so1 : SubOrderDoc :=
  { id := "S1", masterOrderId := "M1", fournisseurId := "F1", fournisseurName := "Biz",
    items := [], status := "confirmed", paymentStatus := "paid", createdAt := 1,
    updatedAt := "t0", confirmedAt := none, deliveredAt := none }

def exC2so2 : SubOrderDoc :=
  { exC2so1 with id := "S2", fournisseurId := "F2", status := "preparing", createdAt := 2 }

def exC2m : MasterOrderDoc :=
  { id := "M1", status := "pending", paymentStatus := "pending", userEmail := "c@x.tn",
    userName := "Cli", updatedAt := "t0", confirmedAt := none, deliveredAt := none }

def exC2st : SysState :=
  { products := [], subOrders := [exC2so1, exC2so2], masterOrders := [exC2m] }

def exC2stAfter : SysState :=
  { exC2st with masterOrders := [{ exC2m with paymentStatus := "paid", updatedAt := "t1" }] }

def exC2evts : List EmailEvt :=
  [{ toEmail := "c@x.tn", subject := "Mise à jour commande #M1 — Paiement: paid" }]

def exC3so : SubOrderDoc :=
  { id := "S3", masterOrderId := "M1", fournisseurId := "F1", fournisseurName := "Biz",
    items := [⟨"A", 2⟩], status := "preparing", paymentStatus := "paid", createdAt := 1,
    updatedAt := "t0", confirmedAt := none, deliveredAt := none }

def exC3m : MasterOrderDoc :=
  { id := "M1", status := "pending", paymentStatus := "pending", userEmail := "",
    userName := "", updatedAt := "t0", confirmedAt := none, deliveredAt := none }

def exC3st : SysState :=
  { products := [exPA], subOrders := [exC3so], masterOrders := [exC3m] }

/-- Product A with only 1 unit left, so a 5-unit line fails validation. -/
def exC8p : ProductDoc := { exPA with stockRaw := some (RawVal.num 1) }

def exC8so : SubOrderDoc := { exC3so with id := "S8", items := [⟨"A", 5⟩] }

def exC8st : SysState :=
  { products := [exC8p], subOrders := [exC8so], masterOrders := [exC3m] }

def exC7st : SysState := { products := [], subOrders := [], masterOrders := [] }

def exTrigSt0 : TriggerState :=
  { notificationLogs := [], processedOrderStates := [], inAppNotifications := [],
    lastProcessedTimestamp := [] }

/-- A change-feed event whose order id contains a hyphen. -/
def exC4hyphen : ChangeDoc :=
  { typ := ChangeType.added, id := "a-b", status := "pending", paymentStatus := "pending",
    fournisseurId := "F1", userName := "U" }

/-- A change-feed event with a hyphen-free order id. -/
def exC4plain : ChangeDoc :=
  { typ := ChangeType.added, id := "ord1", status := "pending", paymentStatus := "pending",
    fournisseurId := "F1", userName := "U" }

def exC9st : TriggerState :=
  { exTrigSt0 with lastProcessedTimestamp := [("F1", 1000)] }

def exC6order : NotifOrder :=
  { id := "ORDER001", fournisseurId := "F1", userName := "Jean", userEmail := "j@x.tn",
    status := "archived", paymentStatus := "pending", total := 42 }

def exC6env : NotifEnv :=
  { suppliers := [{ id := "F1", ownerId := "U1", name := some "Biz" }],
    users := [{ uid := "U1", email := "s@x.tn", fullName := some "Sam" }],
    backendUrl := "http://localhost:4001", backendAccepts := true }

end Optimizi

/-! ## Generic store lemmas -/

namespace Optimizi

theorem findById_updateById {α : Type} (key : α → String) (f : α → α)
    (hf : ∀ x, key (f x) = key x) (l : List α) (k k' : String) :
    findById key (updateById key l k f) k' =
      if k' = k then (findById key l k).map f else findById key l k' := by
  induction l with
  | nil => simp [findById, updateById]
  | cons x t ih =>
    have hstep : updateById key (x :: t) k f =
        (if key x == k then f x else x) :: updateById key t k f := rfl
    unfold findById at ih ⊢
    rw [hstep]
    by_cases hx : key x = k
    · have hxt : (key x == k) = true := beq_iff_eq.mpr hx
      rw [if_pos hxt]
      by_cases hk : k' = k
      · subst hk
        have h1 : (key (f x) == k') = true := by
          rw [hf, hx]
          exact beq_self_eq_true k'
        simp [List.find?_cons, h1, hxt]
      · have h1 : (key (f x) == k') = false := by
          rw [hf, hx]
          exact beq_eq_false_iff_ne.mpr (fun h => hk h.symm)
        have h2 : (key x == k') = false := by
          rw [hx]
          exact beq_eq_false_iff_ne.mpr (fun h => hk h.symm)
        simp only [List.find?_cons, h1, h2]
        rw [ih, if_neg hk, if_neg hk]
    · have hxt : (key x == k) = false := beq_eq_false_iff_ne.mpr hx
      rw [if_neg (by simp [hxt])]
      by_cases hxk : key x = k'
      · have hk : ¬ k' = k := fun h => hx (h ▸ hxk)
        have h2 : (key x == k') = true := beq_iff_eq.mpr hxk
        simp only [List.find?_cons, h2, if_neg hk]
      · have h2 : (key x == k') = false := beq_eq_false_iff_ne.mpr hxk
        simp only [List.find?_cons, h2, hxt]
        rw [ih]

theorem mem_updateById {α : Type} (key : α → String) (l : List α) (k : String) (f : α → α)
    (q : α) (hq : q ∈ updateById key l k f) : q ∈ l ∨ ∃ x ∈ l, q = f x := by
  simp only [updateById, List.mem_map] at hq
  obtain ⟨x, hx, hqx⟩ := hq
  by_cases h : key x = k
  · exact Or.inr ⟨x, hx, by simp [h] at hqx; exact hqx.symm⟩
  · refine Or.inl ?_
    simp [h] at hqx
    exact hqx ▸ hx

end Optimizi

/-! ## Stock ledger lemmas and claims -/

namespace Optimizi.ProductService

theorem checkItem_error_of_missing (ps : List ProductDoc) (it : StockItem)
    (hnone : findById (fun p => p.id) ps it.productId = none) :
    checkItem ps it = Except.error ("Product " ++ it.productId ++ " not found") := by
  simp [checkItem, hnone]

theorem checkItem_error_of_insufficient (ps : List ProductDoc) (it : StockItem)
    (p : ProductDoc) (hp : findById (fun x => x.id) ps it.productId = some p)
    (hlt : coerceDec p.stockRaw < it.quantity) :
    checkItem ps it = Except.error ("Insufficient stock for " ++ it.productId) := by
  simp [checkItem, hp, hlt]

theorem error_mem_batch_errors (ps : List ProductDoc) (items : List StockItem)
    (it : StockItem) (e : String) (hit : it ∈ items)
    (he : checkItem ps it = Except.error e) :
    e ∈ (items.map (checkItem ps)).filterMap errOf := by
  exact List.mem_filterMap.mpr ⟨checkItem ps it, List.mem_map_of_mem _ hit, by simp [errOf, he]⟩

/-- C1.  For every batch passed to `decrementMultipleProductsStock`, if some
line refers to a missing product or requests more than that product's current
stock, the call returns `success = false`, an error entry is present for
every failing line (missing product or insufficient stock), and the products
collection — `stockQuantity` and `updatedAt` included — is left exactly as it
was, also for products whose lines validated successfully. -/
theorem decrementMultipleProductsStock_allOrNothing
    (ps : List ProductDoc) (items : List StockItem) (now : String) (it : StockItem)
    (hit : it ∈ items)
    (hbad : findById (fun p => p.id) ps it.productId = none ∨
      ∃ p, findById (fun p => p.id) ps it.productId = some p ∧
        coerceDec p.stockRaw < it.quantity) :
    (decrementMultipleProductsStock ps items now).1.1 = false ∧
    (decrementMultipleProductsStock ps items now).2 = ps ∧
    (∀ jt ∈ items,
      (findById (fun p => p.id) ps jt.productId = none →
        ("Product " ++ jt.productId ++ " not found") ∈
          (decrementMultipleProductsStock ps items now).1.2) ∧
      (∀ p, findById (fun x => x.id) ps jt.productId = some p →
        coerceDec p.stockRaw < jt.quantity →
        ("Insufficient stock for " ++ jt.productId) ∈
          (decrementMultipleProductsStock ps items now).1.2)) := by
  have herr : ∃ e, checkItem ps it = Except.error e := by
    rcases hbad with hnone | ⟨p, hp, hlt⟩
    · exact ⟨_, checkItem_error_of_missing ps it hnone⟩
    · exact ⟨_, checkItem_error_of_insufficient ps it p hp hlt⟩
  obtain ⟨e, he⟩ := herr
  have hmem : e ∈ (items.map (checkItem ps)).filterMap errOf :=
    error_mem_batch_errors ps items it e hit he
  have hlen : ((items.map (checkItem ps)).filterMap errOf).length > 0 := by
    cases hE : (items.map (checkItem ps)).filterMap errOf with
    | nil => rw [hE] at hmem; cases hmem
    | cons a t => simp
  have hres : decrementMultipleProductsStock ps items now =
      ((false, (items.map (checkItem ps)).filterMap errOf), ps) := by
    simp only [decrementMultipleProductsStock]
    rw [if_pos hlen]
  refine ⟨by rw [hres], by rw [hres], ?_⟩
  intro jt hjt
  constructor
  · intro hnone
    rw [hres]
    exact error_mem_batch_errors ps items jt _ hjt (checkItem_error_of_missing ps jt hnone)
  · intro p hp hlt
    rw [hres]
    exact error_mem_batch_errors ps items jt _ hjt
      (checkItem_error_of_insufficient ps jt p hp hlt)

end Optimizi.ProductService

namespace Optimizi.ProductService

theorem decrementProductStock_missing (ps : List ProductDoc) (productId : String)
    (quantity : Int) (now : String)
    (h : findById (fun p => p.id) ps productId = none) :
    decrementProductStock ps productId quantity now = (false, ps) := by
  unfold decrementProductStock
  rw [h]

theorem decrementProductStock_some (ps : List ProductDoc) (productId : String)
    (quantity : Int) (now : String) (p : ProductDoc)
    (h : findById (fun x => x.id) ps productId = some p) :
    decrementProductStock ps productId quantity now =
      if coerceDec p.stockRaw < quantity then (false, ps)
      else (true, updateById (fun x => x.id) ps productId
        (fun x => { x with
          stockRaw := some (RawVal.num (coerceDec p.stockRaw - quantity))
          updatedAt := now })) := by
  unfold decrementProductStock
  rw [h]

theorem decrementMultipleProductsStock_eq (ps : List ProductDoc) (items : List StockItem)
    (now : String) :
    decrementMultipleProductsStock ps items now =
      if ((items.map (checkItem ps)).filterMap errOf).length > 0
      then ((false, (items.map (checkItem ps)).filterMap errOf), ps)
      else ((true, []), (items.map (checkItem ps)).foldl (applyCheck now) ps) := rfl

theorem checkItem_ok_nonneg (ps : List ProductDoc) (it : StockItem) (pid : String) (n : Int)
    (he : checkItem ps it = Except.ok (pid, n)) : 0 ≤ n := by
  unfold checkItem at he
  cases hfind : findById (fun p => p.id) ps it.productId with
  | none => rw [hfind] at he; cases he
  | some p =>
    rw [hfind] at he
    simp only at he
    split at he
    · cases he
    · rename_i hlt
      have : n = coerceDec p.stockRaw - it.quantity := by
        cases he
        rfl
      rw [this]
      exact Int.sub_nonneg.mpr (le_of_not_lt hlt)

theorem mem_applyCheck_nonneg (now : String) (c : Except String (String × Int))
    (hc : ∀ pid n, c = Except.ok (pid, n) → 0 ≤ n)
    (ps : List ProductDoc) (hps : ∀ p ∈ ps, 0 ≤ coerceDec p.stockRaw) :
    ∀ q ∈ applyCheck now ps c, 0 ≤ coerceDec q.stockRaw := by
  intro q hq
  cases c with
  | error e => exact hps q hq
  | ok pr =>
    obtain ⟨pid, n⟩ := pr
    simp only [applyCheck] at hq
    rcases mem_updateById _ _ _ _ q hq with hmem | ⟨x, _, rfl⟩
    · exact hps q hmem
    · simpa [coerceDec] using hc pid n rfl

theorem foldl_applyCheck_nonneg (now : String) (checks : List (Except String (String × Int)))
    (hchecks : ∀ c ∈ checks, ∀ pid n, c = Except.ok (pid, n) → 0 ≤ n) :
    ∀ ps, (∀ p ∈ ps, 0 ≤ coerceDec p.stockRaw) →
      ∀ q ∈ checks.foldl (applyCheck now) ps, 0 ≤ coerceDec q.stockRaw := by
  induction checks with
  | nil =>
    intro ps hps q hq
    simpa using hps q (by simpa using hq)
  | cons c cs ih =>
    intro ps hps q hq
    rw [List.foldl_cons] at hq
    exact ih (fun d hd => hchecks d (List.mem_cons_of_mem _ hd)) (applyCheck now ps c)
      (mem_applyCheck_nonneg now c (hchecks c (List.mem_cons_self _ _)) ps hps) q hq

/-- C5.  Stock never goes negative: starting from a state where every
product's (coerced) stock quantity is non-negative, both the single and the
batch decrement leave every product's stock quantity non-negative; moreover a
single decrement writes only when the product exists and its current stock is
at least the requested quantity — and then writes exactly current minus
requested — while a failing single decrement writes nothing, and a successful
batch validated every line against its product's current stock. -/
theorem stock_nonneg_invariant (ps : List ProductDoc) (now : String)
    (hps : ∀ p ∈ ps, 0 ≤ coerceDec p.stockRaw) :
    (∀ productId quantity, ∀ q ∈ (decrementProductStock ps productId quantity now).2,
      0 ≤ coerceDec q.stockRaw) ∧
    (∀ items, ∀ q ∈ (decrementMultipleProductsStock ps items now).2,
      0 ≤ coerceDec q.stockRaw) ∧
    (∀ productId quantity, (decrementProductStock ps productId quantity now).1 = true →
      ∃ p, findById (fun x => x.id) ps productId = some p ∧
        quantity ≤ coerceDec p.stockRaw ∧
        (decrementProductStock ps productId quantity now).2 =
          updateById (fun x => x.id) ps productId
            (fun x => { x with
              stockRaw := some (RawVal.num (coerceDec p.stockRaw - quantity))
              updatedAt := now })) ∧
    (∀ productId quantity, (decrementProductStock ps productId quantity now).1 = false →
      (decrementProductStock ps productId quantity now).2 = ps) ∧
    (∀ items, (decrementMultipleProductsStock ps items now).1.1 = true →
      ∀ it ∈ items, ∃ p, findById (fun x => x.id) ps it.productId = some p ∧
        it.quantity ≤ coerceDec p.stockRaw) := by
  refine ⟨?_, ?_, ?_, ?_, ?_⟩
  · intro productId quantity q hq
    cases hfind : findById (fun p => p.id) ps productId with
    | none =>
      rw [decrementProductStock_missing ps productId quantity now hfind] at hq
      exact hps q hq
    | some p =>
      rw [decrementProductStock_some ps productId quantity now p hfind] at hq
      by_cases hlt : coerceDec p.stockRaw < quantity
      · rw [if_pos hlt] at hq
        exact hps q hq
      · rw [if_neg hlt] at hq
        rcases mem_updateById _ _ _ _ q hq with hmem | ⟨x, _, rfl⟩
        · exact hps q hmem
        · simpa [coerceDec] using Int.sub_nonneg.mpr (le_of_not_lt hlt)
  · intro items q hq
    rw [decrementMultipleProductsStock_eq] at hq
    by_cases hlen : ((items.map (checkItem ps)).filterMap errOf).length > 0
    · rw [if_pos hlen] at hq
      exact hps q hq
    · rw [if_neg hlen] at hq
      exact foldl_applyCheck_nonneg now (items.map (checkItem ps))
        (by
          intro c hc pid n hcn
          obtain ⟨it, _, rfl⟩ := List.mem_map.mp hc
          exact checkItem_ok_nonneg ps it pid n hcn)
        ps hps q hq
  · intro productId quantity hsucc
    cases hfind : findById (fun p => p.id) ps productId with
    | none =>
      rw [decrementProductStock_missing ps productId quantity now hfind] at hsucc
      cases hsucc
    | some p =>
      rw [decrementProductStock_some ps productId quantity now p hfind] at hsucc
      by_cases hlt : coerceDec p.stockRaw < quantity
      · rw [if_pos hlt] at hsucc
        cases hsucc
      · refine ⟨p, rfl, le_of_not_lt hlt, ?_⟩
        rw [decrementProductStock_some ps productId quantity now p hfind, if_neg hlt]
  · intro productId quantity hfail
    cases hfind : findById (fun p => p.id) ps productId with
    | none =>
      rw [decrementProductStock_missing ps productId quantity now hfind]
    | some p =>
      rw [decrementProductStock_some ps productId quantity now p hfind] at hfail ⊢
      by_cases hlt : coerceDec p.stockRaw < quantity
      · rw [if_pos hlt]
      · rw [if_neg hlt] at hfail
        cases hfail
  · intro items hsucc it hit
    rw [decrementMultipleProductsStock_eq] at hsucc
    by_cases hlen : ((items.map (checkItem ps)).filterMap errOf).length > 0
    · rw [if_pos hlen] at hsucc
      cases hsucc
    · have hnil : (items.map (checkItem ps)).filterMap errOf = [] := by
        cases hE : (items.map (checkItem ps)).filterMap errOf with
        | nil => rfl
        | cons a t => rw [hE] at hlen; simp at hlen
      have hok : errOf (checkItem ps it) = none :=
        (List.filterMap_eq_nil_iff.mp hnil) _ (List.mem_map_of_mem _ hit)
      cases hfind : findById (fun p => p.id) ps it.productId with
      | none =>
        rw [checkItem_error_of_missing ps it hfind] at hok
        cases hok
      | some p =>
        by_cases hlt : coerceDec p.stockRaw < it.quantity
        · rw [checkItem_error_of_insufficient ps it p hfind hlt] at hok
          cases hok
        · exact ⟨p, rfl, le_of_not_lt hlt⟩

end Optimizi.ProductService

namespace Optimizi.ProductService

theorem enrich_mem (fs : List Fournisseur) (l : List Product) (q : Product)
    (hq : q ∈ enrichProductsWithFournisseurNames fs l) :
    ∃ p ∈ l, q.id = p.id ∧ q.stockQuantity = p.stockQuantity := by
  simp only [enrichProductsWithFournisseurNames, List.mem_map] at hq
  obtain ⟨p, hp, rfl⟩ := hq
  exact ⟨p, hp, rfl, rfl⟩

theorem build_filter_mem (docs' : List ProductDoc) (q : Product)
    (hq : q ∈ (docs'.map buildProduct).filter (fun p => gtZero p.stockQuantity)) :
    (∃ n, q.stockQuantity = some n ∧ 0 < n) ∧
    ∃ d ∈ docs', q.id = d.id ∧ q.stockQuantity = coerceListing d.stockRaw := by
  obtain ⟨hmem, hgt⟩ := List.mem_filter.mp hq
  obtain ⟨d, hd, rfl⟩ := List.mem_map.mp hmem
  refine ⟨?_, d, hd, rfl, rfl⟩
  cases hsq : (buildProduct d).stockQuantity with
  | none =>
    rw [hsq] at hgt
    cases hgt
  | some n =>
    rw [hsq] at hgt
    exact ⟨n, rfl, by simpa [gtZero] using hgt⟩

/-- C10.  Every product returned by `getProducts`, `getProductsByCategory` or
`getFeaturedProducts` has a strictly positive numeric `stockQuantity`, and
traces back to a stored document whose coerced stock value it carries — so
out-of-stock documents, and documents whose stock field is missing or
non-numeric (coerced to `0` resp. `NaN`), are silently excluded. -/
theorem listings_exclude_out_of_stock (docs : List ProductDoc)
    (fournisseurs : List Fournisseur) (categoryId : String) :
    (∀ q ∈ getProducts docs fournisseurs,
      (∃ n, q.stockQuantity = some n ∧ 0 < n) ∧
      ∃ d ∈ docs, q.id = d.id ∧ q.stockQuantity = coerceListing d.stockRaw) ∧
    (∀ q ∈ getProductsByCategory docs fournisseurs categoryId,
      (∃ n, q.stockQuantity = some n ∧ 0 < n) ∧
      ∃ d ∈ docs, q.id = d.id ∧ q.stockQuantity = coerceListing d.stockRaw) ∧
    (∀ q ∈ getFeaturedProducts docs fournisseurs,
      (∃ n, q.stockQuantity = some n ∧ 0 < n) ∧
      ∃ d ∈ docs, q.id = d.id ∧ q.stockQuantity = coerceListing d.stockRaw) := by
  refine ⟨?_, ?_, ?_⟩
  · intro q hq
    obtain ⟨p, hp, hid, hsq⟩ := enrich_mem fournisseurs _ q hq
    obtain ⟨⟨n, hn, hn0⟩, d, hd, hpid, hpsq⟩ := build_filter_mem docs p hp
    exact ⟨⟨n, hsq ▸ hn, hn0⟩, d, hd, hid ▸ hpid, hsq ▸ hpsq⟩
  · intro q hq
    obtain ⟨p, hp, hid, hsq⟩ := enrich_mem fournisseurs _ q hq
    obtain ⟨⟨n, hn, hn0⟩, d, hd, hpid, hpsq⟩ :=
      build_filter_mem (docs.filter (fun d => d.categoryId == some categoryId)) p hp
    exact ⟨⟨n, hsq ▸ hn, hn0⟩, d, List.mem_of_mem_filter hd, hid ▸ hpid, hsq ▸ hpsq⟩
  · intro q hq
    obtain ⟨p, hp, hid, hsq⟩ := enrich_mem fournisseurs _ q hq
    obtain ⟨⟨n, hn, hn0⟩, d, hd, hpid, hpsq⟩ :=
      build_filter_mem (docs.filter (fun d => d.feature)) p hp
    exact ⟨⟨n, hsq ▸ hn, hn0⟩, d, List.mem_of_mem_filter hd, hid ▸ hpid, hsq ▸ hpsq⟩

end Optimizi.ProductService

/-! ## Master-order synchronizer lemmas and claims -/

namespace Optimizi.MasterOrderService

theorem masterUpdate_id (aS aP : Bool) (s0 p0 now : String) (x : MasterOrderDoc) :
    (masterUpdate aS aP s0 p0 now x).id = x.id := rfl

theorem masterUpdate_status_of_not_unanimous (aP : Bool) (s0 p0 now : String)
    (x : MasterOrderDoc) : (masterUpdate false aP s0 p0 now x).status = x.status := by
  simp [masterUpdate]

theorem sync_ok_frame (backendUrl : String) (st : SysState) (mid now : String)
    (st' : SysState) (evts : List EmailEvt)
    (h : syncMasterOrderStatus backendUrl st mid now = Except.ok (st', evts)) :
    st'.products = st.products ∧ st'.subOrders = st.subOrders ∧
    ∀ k, (findById (fun x => x.id) st'.masterOrders k).isSome =
      (findById (fun x => x.id) st.masterOrders k).isSome := by
  simp only [syncMasterOrderStatus] at h
  split at h
  · injection h with h'
    injection h' with h1 h2
    subst h1
    exact ⟨rfl, rfl, fun k => rfl⟩
  · split at h
    · split at h
      · cases h
      · injection h with h'
        injection h' with h1 h2
        subst h1
        refine ⟨rfl, rfl, fun k => ?_⟩
        show (findById (fun x => x.id)
          (updateById (fun x => x.id) st.masterOrders mid _) k).isSome = _
        rw [findById_updateById (fun x => x.id) _ (fun x => masterUpdate_id _ _ _ _ _ x)]
        by_cases hk : k = mid
        · subst hk
          rw [if_pos rfl]
          cases findById (fun x => x.id) st.masterOrders k <;> rfl
        · rw [if_neg hk]
    · injection h with h'
      injection h' with h1 h2
      subst h1
      exact ⟨rfl, rfl, fun k => rfl⟩

theorem sync_isOk_of_master (backendUrl : String) (st : SysState) (mid now : String)
    (m : MasterOrderDoc) (hm : findById (fun x => x.id) st.masterOrders mid = some m) :
    ∃ st' evts, syncMasterOrderStatus backendUrl st mid now = Except.ok (st', evts) := by
  simp only [syncMasterOrderStatus]
  split
  · exact ⟨st, [], rfl⟩
  · split
    · rw [hm]
      exact ⟨_, _, rfl⟩
    · exact ⟨st, [], rfl⟩

/-- C2.  Unanimity gating: when a master order has at least one sub-order and
the sub-orders' statuses are not all equal, a successful sync leaves
`MasterOrder.status` exactly as it was — no mixed or partial value is ever
written — even when the independent payment-status check updates the other
fields. -/
theorem syncMasterOrderStatus_mixed_preserves_status (backendUrl : String) (st : SysState)
    (mid now : String) (st' : SysState) (evts : List EmailEvt)
    (hne : getSubOrdersByMasterOrderId st.subOrders mid ≠ [])
    (hmix : allSameHead ((getSubOrdersByMasterOrderId st.subOrders mid).map
      (fun o => o.status)) = false)
    (h : syncMasterOrderStatus backendUrl st mid now = Except.ok (st', evts)) :
    (findById (fun x => x.id) st'.masterOrders mid).map (fun m => m.status) =
      (findById (fun x => x.id) st.masterOrders mid).map (fun m => m.status) := by
  simp only [syncMasterOrderStatus, hmix] at h
  split at h
  · injection h with h'
    injection h' with h1 h2
    subst h1
    rfl
  · split at h
    · split at h
      · cases h
      · injection h with h'
        injection h' with h1 h2
        subst h1
        show (findById (fun x => x.id)
          (updateById (fun x => x.id) st.masterOrders mid _) mid).map (fun m => m.status) = _
        rw [findById_updateById (fun x => x.id) _ (fun x => masterUpdate_id _ _ _ _ _ x),
          if_pos rfl]
        cases findById (fun x => x.id) st.masterOrders mid with
        | none => rfl
        | some m => simp [masterUpdate_status_of_not_unanimous]
    · injection h with h'
      injection h' with h1 h2
      subst h1
      rfl

end Optimizi.MasterOrderService

namespace Optimizi.MasterOrderService

open Optimizi.ProductService

theorem applySubOrderUpdateData_id (status : String) (paymentStatus : Option String)
    (now : String) (s : SubOrderDoc) :
    (applySubOrderUpdateData status paymentStatus now s).id = s.id := rfl

theorem applySubOrderUpdateData_status (status : String) (paymentStatus : Option String)
    (now : String) (s : SubOrderDoc) :
    (applySubOrderUpdateData status paymentStatus now s).status = status := rfl

theorem applySubOrderUpdateData_masterOrderId (status : String) (paymentStatus : Option String)
    (now : String) (s : SubOrderDoc) :
    (applySubOrderUpdateData status paymentStatus now s).masterOrderId = s.masterOrderId := rfl

theorem updateSubOrderWrites_count (st : SysState) (subOrderId status : String)
    (paymentStatus : Option String) (now : String) (cur : SubOrderDoc) :
    (updateSubOrderWrites st subOrderId status paymentStatus now cur).2 =
      if shouldDecrementStock status cur.status then 1 else 0 := by
  cases h : shouldDecrementStock status cur.status <;>
    simp [updateSubOrderWrites, h]

theorem updateSubOrderWrites_products (st : SysState) (subOrderId status : String)
    (paymentStatus : Option String) (now : String) (cur : SubOrderDoc) :
    (updateSubOrderWrites st subOrderId status paymentStatus now cur).1.products =
      if shouldDecrementStock status cur.status then
        (decrementMultipleProductsStock st.products (stockItemsOf cur) now).2
      else st.products := by
  cases h : shouldDecrementStock status cur.status <;>
    simp [updateSubOrderWrites, h]

theorem updateSubOrderWrites_subOrders (st : SysState) (subOrderId status : String)
    (paymentStatus : Option String) (now : String) (cur : SubOrderDoc) :
    (updateSubOrderWrites st subOrderId status paymentStatus now cur).1.subOrders =
      updateById (fun s => s.id) st.subOrders subOrderId
        (applySubOrderUpdateData status paymentStatus now) := by
  cases h : shouldDecrementStock status cur.status <;>
    simp [updateSubOrderWrites, h]

theorem updateSubOrderWrites_masterOrders (st : SysState) (subOrderId status : String)
    (paymentStatus : Option String) (now : String) (cur : SubOrderDoc) :
    (updateSubOrderWrites st subOrderId status paymentStatus now cur).1.masterOrders =
      st.masterOrders := by
  cases h : shouldDecrementStock status cur.status <;>
    simp [updateSubOrderWrites, h]

theorem updateSubOrderStatus_ok (backendUrl : String) (st : SysState)
    (subOrderId status : String) (paymentStatus : Option String) (now : String)
    (cur : SubOrderDoc) (m : MasterOrderDoc)
    (hcur : findById (fun s => s.id) st.subOrders subOrderId = some cur)
    (hm : findById (fun x => x.id) st.masterOrders cur.masterOrderId = some m) :
    ∃ st' tr, updateSubOrderStatus backendUrl st subOrderId status paymentStatus now =
        Except.ok (st', tr) ∧
      tr.decrementInvocations = (if shouldDecrementStock status cur.status then 1 else 0) ∧
      st'.products = (if shouldDecrementStock status cur.status then
        (decrementMultipleProductsStock st.products (stockItemsOf cur) now).2
        else st.products) ∧
      st'.subOrders = updateById (fun s => s.id) st.subOrders subOrderId
        (applySubOrderUpdateData status paymentStatus now) ∧
      ∀ k, (findById (fun x => x.id) st'.masterOrders k).isSome =
        (findById (fun x => x.id) st.masterOrders k).isSome := by
  obtain ⟨stS, evts, hsync⟩ := sync_isOk_of_master backendUrl
    (updateSubOrderWrites st subOrderId status paymentStatus now cur).1
    cur.masterOrderId now m
    (by rw [updateSubOrderWrites_masterOrders]; exact hm)
  obtain ⟨hp, hs, hmk⟩ := sync_ok_frame _ _ _ _ _ _ hsync
  have heq : updateSubOrderStatus backendUrl st subOrderId status paymentStatus now =
      Except.ok (stS,
        { decrementInvocations := (updateSubOrderWrites st subOrderId status paymentStatus now cur).2
          emails := evts
          orderNotifs := if status != cur.status then 1 else 0
          payNotifs := match paymentStatus with
            | some p => if p != "" && p != cur.paymentStatus then 1 else 0
            | none => 0 }) := by
    simp only [updateSubOrderStatus, updateSubOrderStatusCore, hcur, hsync]
    cases paymentStatus <;> rfl
  refine ⟨stS, _, heq, ?_, ?_, ?_, ?_⟩
  · exact updateSubOrderWrites_count st subOrderId status paymentStatus now cur
  · rw [hp, updateSubOrderWrites_products]
  · rw [hs, updateSubOrderWrites_subOrders]
  · intro k
    rw [hmk k, updateSubOrderWrites_masterOrders]

end Optimizi.MasterOrderService

namespace Optimizi.MasterOrderService

open Optimizi.ProductService

/-- C3.  The stock decrement is invoked by `updateSubOrderStatus` exactly when
the requested status is `out_for_delivery` and the stored previous status is
not `out_for_delivery`; consequently two consecutive `out_for_delivery` calls
decrement exactly once, and the second call performs zero inventory writes
(its product state is untouched). -/
theorem updateSubOrderStatus_decrement_trigger (backendUrl : String) (st : SysState)
    (subOrderId status : String) (paymentStatus : Option String) (now now₂ : String)
    (cur : SubOrderDoc) (m : MasterOrderDoc)
    (hcur : findById (fun s => s.id) st.subOrders subOrderId = some cur)
    (hm : findById (fun x => x.id) st.masterOrders cur.masterOrderId = some m) :
    ∃ st₁ tr₁, updateSubOrderStatus backendUrl st subOrderId status paymentStatus now =
        Except.ok (st₁, tr₁) ∧
      tr₁.decrementInvocations =
        (if status == "out_for_delivery" && cur.status != "out_for_delivery" then 1 else 0) ∧
      (status = "out_for_delivery" → cur.status ≠ "out_for_delivery" →
        ∃ st₂ tr₂,
          updateSubOrderStatus backendUrl st₁ subOrderId status paymentStatus now₂ =
            Except.ok (st₂, tr₂) ∧
          tr₁.decrementInvocations + tr₂.decrementInvocations = 1 ∧
          tr₂.decrementInvocations = 0 ∧
          st₂.products = st₁.products) := by
  obtain ⟨st₁, tr₁, h1, hdec1, hprod1, hsub1, hmast1⟩ :=
    updateSubOrderStatus_ok backendUrl st subOrderId status paymentStatus now cur m hcur hm
  refine ⟨st₁, tr₁, h1, hdec1, ?_⟩
  intro hstat hprev
  have hcur₂ : findById (fun s => s.id) st₁.subOrders subOrderId =
      some (applySubOrderUpdateData status paymentStatus now cur) := by
    rw [hsub1,
      findById_updateById (fun s => s.id) _
        (fun x => applySubOrderUpdateData_id status paymentStatus now x),
      if_pos rfl, hcur]
    rfl
  have hm₂ : (findById (fun x => x.id) st₁.masterOrders
      (applySubOrderUpdateData status paymentStatus now cur).masterOrderId).isSome = true := by
    rw [applySubOrderUpdateData_masterOrderId, hmast1 cur.masterOrderId, hm]
    rfl
  obtain ⟨m₂, hm₂⟩ := Option.isSome_iff_exists.mp hm₂
  obtain ⟨st₂, tr₂, h2, hdec2, hprod2, _, _⟩ :=
    updateSubOrderStatus_ok backendUrl st₁ subOrderId status paymentStatus now₂
      (applySubOrderUpdateData status paymentStatus now cur) m₂ hcur₂ hm₂
  have hgate1 : shouldDecrementStock status cur.status = true := by
    subst hstat
    simp [shouldDecrementStock, hprev]
  have hgate2 : shouldDecrementStock status
      (applySubOrderUpdateData status paymentStatus now cur).status = false := by
    subst hstat
    simp [shouldDecrementStock, applySubOrderUpdateData_status]
  refine ⟨st₂, tr₂, h2, ?_, ?_, ?_⟩
  · rw [hdec1, hdec2, hgate2, hgate1]
    simp
  · rw [hdec2, hgate2]
    simp
  · rw [hprod2, hgate2]
    simp

/-- C8.  When the triggered stock decrement reports `success = false`, the
sub-order status write still proceeds: the call returns normally and the
stored sub-order carries exactly the field merge `applySubOrderUpdateData`
— the same record written on a successful decrement, which mentions no stock
outcome — so the decrement failure is not raised to the caller. -/
theorem updateSubOrderStatus_proceeds_on_stock_failure (backendUrl : String) (st : SysState)
    (subOrderId : String) (paymentStatus : Option String) (now : String)
    (cur : SubOrderDoc) (m : MasterOrderDoc)
    (hcur : findById (fun s => s.id) st.subOrders subOrderId = some cur)
    (hm : findById (fun x => x.id) st.masterOrders cur.masterOrderId = some m)
    (hprev : cur.status ≠ "out_for_delivery")
    (hfail : (decrementMultipleProductsStock st.products (stockItemsOf cur) now).1.1 = false) :
    ∃ st' tr,
      updateSubOrderStatus backendUrl st subOrderId "out_for_delivery" paymentStatus now =
        Except.ok (st', tr) ∧
      findById (fun s => s.id) st'.subOrders subOrderId =
        some (applySubOrderUpdateData "out_for_delivery" paymentStatus now cur) := by
  obtain ⟨st', tr, h1, _, _, hsub1, _⟩ :=
    updateSubOrderStatus_ok backendUrl st subOrderId "out_for_delivery" paymentStatus now
      cur m hcur hm
  refine ⟨st', tr, h1, ?_⟩
  rw [hsub1,
    findById_updateById (fun s => s.id) _
      (fun x => applySubOrderUpdateData_id "out_for_delivery" paymentStatus now x),
    if_pos rfl, hcur]
  rfl

theorem sync_noop_of_no_subOrders (backendUrl : String) (st : SysState) (mid now : String)
    (h : getSubOrdersByMasterOrderId st.subOrders mid = []) :
    syncMasterOrderStatus backendUrl st mid now = Except.ok (st, []) := by
  simp [syncMasterOrderStatus, h]

/-- C7 (amended).  Not-found handling in the status-update hot path: a missing
product in the single stock decrement is returned as `false` with no write and
a master order without sub-orders makes the sync a silent no-op, but
`updateSubOrderStatus` called with a missing sub-order id does throw — the
caller receives the rethrown error `Failed to update order status` instead of
a `false`/empty result. -/
theorem notFound_handling_amended :
    (∀ (backendUrl : String) (st : SysState) (subOrderId status : String)
      (paymentStatus : Option String) (now : String),
      findById (fun s => s.id) st.subOrders subOrderId = none →
      updateSubOrderStatus backendUrl st subOrderId status paymentStatus now =
        Except.error "Failed to update order status") ∧
    (∀ (ps : List ProductDoc) (productId : String) (quantity : Int) (now : String),
      findById (fun p => p.id) ps productId = none →
      decrementProductStock ps productId quantity now = (false, ps)) ∧
    (∀ (backendUrl : String) (st : SysState) (mid now : String),
      getSubOrdersByMasterOrderId st.subOrders mid = [] →
      syncMasterOrderStatus backendUrl st mid now = Except.ok (st, [])) := by
  refine ⟨?_, ?_, ?_⟩
  · intro backendUrl st subOrderId status paymentStatus now h
    simp only [updateSubOrderStatus, updateSubOrderStatusCore, h]
  · intro ps productId quantity now h
    exact decrementProductStock_missing ps productId quantity now h
  · intro backendUrl st mid now h
    exact sync_noop_of_no_subOrders backendUrl st mid now h

end Optimizi.MasterOrderService

/-! ## Change-feed trigger lemmas and claims -/

namespace Optimizi

theorem splitDashChars_ne_nil (l : List Char) : splitDashChars l ≠ [] := by
  cases l with
  | nil => simp [splitDashChars]
  | cons c cs =>
    simp only [splitDashChars]
    cases hsp : splitDashChars cs with
    | nil => simp
    | cons h t =>
      by_cases hc : c = '-' <;> simp [hc]

theorem splitDashChars_head (l : List Char) :
    (splitDashChars l).headD [] = l.takeWhile (fun c => c != '-') := by
  induction l with
  | nil => rfl
  | cons c cs ih =>
    cases hsp : splitDashChars cs with
    | nil => exact absurd hsp (splitDashChars_ne_nil cs)
    | cons h t =>
      rw [hsp] at ih
      by_cases hc : c = '-'
      · subst hc
        simp [splitDashChars, hsp, List.takeWhile]
      · have hstep : splitDashChars (c :: cs) = (c :: h) :: t := by
          simp [splitDashChars, hsp, hc]
        have hbne : (c != '-') = true := by
          simp [hc]
        have hrhs : (c :: cs).takeWhile (fun x => x != '-') =
            c :: cs.takeWhile (fun x => x != '-') := by
          simp [List.takeWhile, hbne]
        have ih' : h = cs.takeWhile (fun x => x != '-') := ih
        rw [hstep, hrhs]
        show c :: h = c :: cs.takeWhile (fun x => x != '-')
        rw [ih']

theorem jsSplitDash_headD (s : String) : (jsSplitDash s).headD "" = headUpToDash s := by
  unfold jsSplitDash headUpToDash
  cases hsp : splitDashChars s.data with
  | nil => exact absurd hsp (splitDashChars_ne_nil s.data)
  | cons h t =>
    have := splitDashChars_head s.data
    rw [hsp] at this
    simp only [List.headD] at this
    simp [this]

theorem takeWhile_append_of_all {p : Char → Bool} (l m : List Char) (hl : l.all p = true) :
    (l ++ m).takeWhile p = l ++ m.takeWhile p := by
  induction l with
  | nil => rfl
  | cons c cs ih =>
    simp only [List.all_cons, Bool.and_eq_true] at hl
    simp [List.takeWhile, hl.1, ih hl.2]

end Optimizi

namespace Optimizi.OrderNotificationTrigger

theorem headUpToDash_orderKey (c : ChangeDoc)
    (hid : c.id.data.all (fun ch => ch != '-') = true) :
    headUpToDash (orderKeyOf c) = c.id := by
  unfold headUpToDash orderKeyOf
  have hdata : (c.id ++ "-" ++ c.status ++ "-" ++ c.paymentStatus).data =
      c.id.data ++ ('-' :: (c.status.data ++ ('-' :: c.paymentStatus.data))) := by
    simp [String.data_append]
  rw [hdata, takeWhile_append_of_all _ _ hid]
  have : (('-' :: (c.status.data ++ ('-' :: c.paymentStatus.data))).takeWhile
      (fun ch => ch != '-')) = [] := by
    simp [List.takeWhile]
  rw [this, List.append_nil]

/-- C9.  The 2-second throttle: when a snapshot batch arrives less than
2000 ms after the supplier's previously processed batch, the whole batch is
dropped — the state (ledgers, in-app rows, timestamps) is unchanged and no
action is performed. -/
theorem throttle_drops_batch (sendOk : Bool) (fournisseurId : String) (currentTime : Int)
    (changes : List ChangeDoc) (st : TriggerState)
    (h : currentTime - ((findById (fun p => p.1) st.lastProcessedTimestamp fournisseurId).map
      (fun p => p.2)).getD 0 < 2000) :
    handleSnapshot sendOk fournisseurId currentTime changes st = (st, []) := by
  simp only [handleSnapshot]
  rw [if_pos h]

end Optimizi.OrderNotificationTrigger

namespace Optimizi.OrderNotificationTrigger

theorem processChange_fresh (sendOk : Bool) (st : TriggerState) (c : ChangeDoc) (ev : String)
    (hfresh : checkIfAlreadyProcessed st.notificationLogs (orderKeyOf c) c.fournisseurId = false)
    (htyp : (c.typ = ChangeType.added ∧ ev = "new_order") ∨
      (c.typ = ChangeType.modified ∧ ev = "status_update")) :
    processChange sendOk st c =
      ({ st with
          processedOrderStates :=
            markAsProcessed st.processedOrderStates (orderKeyOf c) c.fournisseurId
          notificationLogs :=
            st.notificationLogs ++ [mkLogEntry c ev (if sendOk then "success" else "failed")]
          inAppNotifications := st.inAppNotifications ++ [c.id] },
        [TrigAction.markProcessed (orderKeyOf c) c.fournisseurId,
         TrigAction.sendMail c.id,
         TrigAction.writeLog c.id ev (if sendOk then "success" else "failed"),
         TrigAction.writeInApp c.id]) := by
  rcases htyp with ⟨h, rfl⟩ | ⟨h, rfl⟩ <;> simp [processChange, hfresh, h]

theorem processChange_skip (sendOk : Bool) (st : TriggerState) (c : ChangeDoc)
    (hskip : checkIfAlreadyProcessed st.notificationLogs (orderKeyOf c) c.fournisseurId = true) :
    processChange sendOk st c = (st, []) := by
  simp [processChange, hskip]

/-- C4 (amended).  For two change-feed events that survive the throttle and
carry the identical `(orderId, status, paymentStatus)` tuple, *provided the
orderId contains no `'-'` character* (so the ledger key's first
`'-'`-separated component is the full id), the second event is skipped by the
`checkIfAlreadyProcessed` query once the first has been fully processed:
exactly one notification-log entry and exactly one mail-send invocation
result, and the idempotency-ledger write (`markAsProcessed`) precedes the
mail dispatch in the first event's action sequence. -/
theorem notification_dedup_amended (sendOk sendOk₂ : Bool) (st₀ : TriggerState)
    (c c₂ : ChangeDoc)
    (htyp : c.typ = ChangeType.added ∨ c.typ = ChangeType.modified)
    (hid : c.id.data.all (fun ch => ch != '-') = true)
    (hsame : c₂.id = c.id ∧ c₂.status = c.status ∧ c₂.paymentStatus = c.paymentStatus ∧
      c₂.fournisseurId = c.fournisseurId)
    (hfresh : checkIfAlreadyProcessed st₀.notificationLogs (orderKeyOf c) c.fournisseurId
      = false) :
    processChange sendOk₂ (processChange sendOk st₀ c).1 c₂ =
      ((processChange sendOk st₀ c).1, []) ∧
    (processChange sendOk st₀ c).1.notificationLogs.length =
      st₀.notificationLogs.length + 1 ∧
    countSendMail ((processChange sendOk st₀ c).2 ++
      (processChange sendOk₂ (processChange sendOk st₀ c).1 c₂).2) = 1 ∧
    ∃ rest, (processChange sendOk st₀ c).2 =
      TrigAction.markProcessed (orderKeyOf c) c.fournisseurId ::
        TrigAction.sendMail c.id :: rest := by
  obtain ⟨hsameId, _, _, hsameF⟩ := hsame
  have hev : (c.typ = ChangeType.added ∧ "new_order" = "new_order") ∨
      (c.typ = ChangeType.modified ∧ "status_update" = "status_update") := by
    rcases htyp with h | h
    · exact Or.inl ⟨h, rfl⟩
    · exact Or.inr ⟨h, rfl⟩
  have hev' : ∃ ev, (c.typ = ChangeType.added ∧ ev = "new_order") ∨
      (c.typ = ChangeType.modified ∧ ev = "status_update") := by
    rcases htyp with h | h
    · exact ⟨"new_order", Or.inl ⟨h, rfl⟩⟩
    · exact ⟨"status_update", Or.inr ⟨h, rfl⟩⟩
  obtain ⟨ev, hevc⟩ := hev'
  have h1 := processChange_fresh sendOk st₀ c ev hfresh hevc
  have hoid : (jsSplitDash (orderKeyOf c₂)).headD "" = c.id := by
    rw [jsSplitDash_headD, headUpToDash_orderKey c₂ (by rw [hsameId]; exact hid), hsameId]
  have hevmem : (mkLogEntry c ev (if sendOk then "success" else "failed")).eventType
      = "new_order" ∨
      (mkLogEntry c ev (if sendOk then "success" else "failed")).eventType
      = "status_update" := by
    rcases hevc with ⟨_, rfl⟩ | ⟨_, rfl⟩
    · exact Or.inl rfl
    · exact Or.inr rfl
  have hskip : checkIfAlreadyProcessed (processChange sendOk st₀ c).1.notificationLogs
      (orderKeyOf c₂) c₂.fournisseurId = true := by
    rw [h1]
    unfold checkIfAlreadyProcessed
    rw [hoid]
    apply List.any_eq_true.mpr
    refine ⟨mkLogEntry c ev (if sendOk then "success" else "failed"), ?_, ?_⟩
    · exact List.mem_append_right _ (List.mem_singleton.mpr rfl)
    · have hfid : (mkLogEntry c ev (if sendOk then "success" else "failed")).fournisseurId
          = c₂.fournisseurId := by
        rw [hsameF]
        rfl
      rcases hevmem with hevm | hevm
      · simp [mkLogEntry, hfid, hsameF]
        exact Or.inl hevm
      · simp [mkLogEntry, hfid, hsameF]
        exact Or.inr hevm
  have h2 := processChange_skip sendOk₂ (processChange sendOk st₀ c).1 c₂ hskip
  refine ⟨h2, ?_, ?_, ?_⟩
  · rw [h1]
    simp
  · rw [h2, h1]
    simp [countSendMail, isSendMail]
  · rw [h1]
    exact ⟨[TrigAction.writeLog c.id ev (if sendOk then "success" else "failed"),
      TrigAction.writeInApp c.id], rfl⟩

end Optimizi.OrderNotificationTrigger

/-! ## Notification dispatcher lemmas and claims -/

namespace Optimizi.SupplierNotificationService

/-- C6 (amended).  For an order whose status is outside the six enumerated
values, the Notification Dispatcher does *not* treat template selection as a
hard failure: `generateEmailSubject` silently substitutes the generic default
template (status emoji, order number, upper-cased raw status), and the
outcome of `sendOrderNotification` is exactly the one determined by supplier
resolution and the mail backend — template selection never fails the call. -/
theorem unrecognized_status_fallback (env : NotifEnv) (order : NotifOrder)
    (orderNumber : String)
    (hstatus : order.status ∉
      ["pending", "confirmed", "preparing", "out_for_delivery", "delivered", "cancelled"]) :
    generateEmailSubject order orderNumber =
      getStatusEmoji order.status ++ " COMMANDE #" ++ orderNumber ++ " - " ++
        jsToUpperCase order.status ∧
    (sendOrderNotification env order).1 =
      (match getSupplierInfo env.suppliers env.users order.fournisseurId with
       | none => false
       | some _ => sendEmailViaBackend env) := by
  simp only [List.mem_cons, List.mem_singleton, not_or] at hstatus
  obtain ⟨h1, h2, h3, h4, h5, h6, -⟩ := hstatus
  constructor
  · have hb1 : ("pending" == order.status) = false :=
      beq_eq_false_iff_ne.mpr (fun h => h1 h.symm)
    have hb2 : ("confirmed" == order.status) = false :=
      beq_eq_false_iff_ne.mpr (fun h => h2 h.symm)
    have hb3 : ("preparing" == order.status) = false :=
      beq_eq_false_iff_ne.mpr (fun h => h3 h.symm)
    have hb4 : ("out_for_delivery" == order.status) = false :=
      beq_eq_false_iff_ne.mpr (fun h => h4 h.symm)
    have hb5 : ("delivered" == order.status) = false :=
      beq_eq_false_iff_ne.mpr (fun h => h5 h.symm)
    have hb6 : ("cancelled" == order.status) = false :=
      beq_eq_false_iff_ne.mpr (fun h => h6 h.symm)
    simp [generateEmailSubject, findById, List.find?_cons, hb1, hb2, hb3, hb4, hb5, hb6, jsOr]
  · cases hsup : getSupplierInfo env.suppliers env.users order.fournisseurId with
    | none => simp [sendOrderNotification, hsup]
    | some info =>
      cases hsend : sendEmailViaBackend env <;>
        simp [sendOrderNotification, hsup, hsend]

end Optimizi.SupplierNotificationService

/-! ## Closed witnesses and counterexamples -/

namespace Optimizi

open ProductService MasterOrderService OrderNotificationTrigger SupplierNotificationService

/-- Witness for C1 at the spec's own example: items (A, qty 5, stock 10) and
(B, qty 20, stock 3). -/
theorem decrementMultipleProductsStock_allOrNothing_witness :
    (decrementMultipleProductsStock exC1products exC1items "t1").1.1 = false ∧
    (decrementMultipleProductsStock exC1products exC1items "t1").2 = exC1products ∧
    (∀ jt ∈ exC1items,
      (findById (fun p => p.id) exC1products jt.productId = none →
        ("Product " ++ jt.productId ++ " not found") ∈
          (decrementMultipleProductsStock exC1products exC1items "t1").1.2) ∧
      (∀ p, findById (fun x => x.id) exC1products jt.productId = some p →
        coerceDec p.stockRaw < jt.quantity →
        ("Insufficient stock for " ++ jt.productId) ∈
          (decrementMultipleProductsStock exC1products exC1items "t1").1.2)) :=
  decrementMultipleProductsStock_allOrNothing exC1products exC1items "t1" ⟨"B", 20⟩
    (by decide) (Or.inr ⟨exPB, by decide, by decide⟩)

/-- Witness for C2: sub-orders [confirmed, preparing] with unanimous payment
status `paid` — the master order is updated (payment status written) while
its status stays `pending`. -/
theorem syncMasterOrderStatus_mixed_preserves_status_witness :
    (findById (fun x => x.id) exC2stAfter.masterOrders "M1").map (fun m => m.status) =
      (findById (fun x => x.id) exC2st.masterOrders "M1").map (fun m => m.status) :=
  syncMasterOrderStatus_mixed_preserves_status "http://b" exC2st "M1" "t1"
    exC2stAfter exC2evts (by decide) (by decide) (by rfl)

/-- Witness for C3: sub-order S3 goes `preparing → out_for_delivery` twice. -/
theorem updateSubOrderStatus_decrement_trigger_witness :
    ∃ st₁ tr₁,
      updateSubOrderStatus "http://b" exC3st "S3" "out_for_delivery" none "t1" =
        Except.ok (st₁, tr₁) ∧
      tr₁.decrementInvocations = (if "out_for_delivery" == "out_for_delivery" &&
        exC3so.status != "out_for_delivery" then 1 else 0) ∧
      ("out_for_delivery" = "out_for_delivery" → exC3so.status ≠ "out_for_delivery" →
        ∃ st₂ tr₂,
          updateSubOrderStatus "http://b" st₁ "S3" "out_for_delivery" none "t2" =
            Except.ok (st₂, tr₂) ∧
          tr₁.decrementInvocations + tr₂.decrementInvocations = 1 ∧
          tr₂.decrementInvocations = 0 ∧
          st₂.products = st₁.products) :=
  updateSubOrderStatus_decrement_trigger "http://b" exC3st "S3" "out_for_delivery" none
    "t1" "t2" exC3so exC3m (by decide) (by decide)

/-- Witness for C5 on a store holding numeric, zero, missing and non-numeric
stock values. -/
theorem stock_nonneg_invariant_witness :
    (∀ productId quantity, ∀ q ∈ (decrementProductStock exC5products productId quantity "t1").2,
      0 ≤ coerceDec q.stockRaw) ∧
    (∀ items, ∀ q ∈ (decrementMultipleProductsStock exC5products items "t1").2,
      0 ≤ coerceDec q.stockRaw) ∧
    (∀ productId quantity,
      (decrementProductStock exC5products productId quantity "t1").1 = true →
      ∃ p, findById (fun x => x.id) exC5products productId = some p ∧
        quantity ≤ coerceDec p.stockRaw ∧
        (decrementProductStock exC5products productId quantity "t1").2 =
          updateById (fun x => x.id) exC5products productId
            (fun x => { x with
              stockRaw := some (RawVal.num (coerceDec p.stockRaw - quantity))
              updatedAt := "t1" })) ∧
    (∀ productId quantity,
      (decrementProductStock exC5products productId quantity "t1").1 = false →
      (decrementProductStock exC5products productId quantity "t1").2 = exC5products) ∧
    (∀ items, (decrementMultipleProductsStock exC5products items "t1").1.1 = true →
      ∀ it ∈ items, ∃ p, findById (fun x => x.id) exC5products it.productId = some p ∧
        it.quantity ≤ coerceDec p.stockRaw) :=
  stock_nonneg_invariant exC5products "t1" (by decide)

/-- Witness for C8: sub-order S8 requests 5 units of a product holding 1, so
the decrement fails, yet the status write proceeds. -/
theorem updateSubOrderStatus_proceeds_on_stock_failure_witness :
    ∃ st' tr,
      updateSubOrderStatus "http://b" exC8st "S8" "out_for_delivery" none "t1" =
        Except.ok (st', tr) ∧
      findById (fun s => s.id) st'.subOrders "S8" =
        some (applySubOrderUpdateData "out_for_delivery" none "t1" exC8so) :=
  updateSubOrderStatus_proceeds_on_stock_failure "http://b" exC8st "S8" none "t1"
    exC8so exC3m (by decide) (by decide) (by decide) (by decide)

/-- Witness for C9: a batch arriving at t = 2500 ms, 1500 ms after the
previous batch, is dropped whole. -/
theorem throttle_drops_batch_witness :
    handleSnapshot true "F1" 2500 [exC4plain] exC9st = (exC9st, []) :=
  throttle_drops_batch true "F1" 2500 [exC4plain] exC9st (by decide)

/-- Witness for C10: of four stored documents (stock 10, stock 0, missing
stock, non-numeric stock) only the in-stock one is returned. -/
theorem listings_exclude_out_of_stock_witness :
    (∃ n, exC10q.stockQuantity = some n ∧ 0 < n) ∧
    ∃ d ∈ exC10docs, exC10q.id = d.id ∧ exC10q.stockQuantity = coerceListing d.stockRaw :=
  (listings_exclude_out_of_stock exC10docs exC10fournisseurs "c1").1 exC10q (by decide)

/-- Witness for the amended C4 at a hyphen-free order id. -/
theorem notification_dedup_amended_witness :
    processChange true (processChange true exTrigSt0 exC4plain).1 exC4plain =
      ((processChange true exTrigSt0 exC4plain).1, []) ∧
    (processChange true exTrigSt0 exC4plain).1.notificationLogs.length =
      exTrigSt0.notificationLogs.length + 1 ∧
    countSendMail ((processChange true exTrigSt0 exC4plain).2 ++
      (processChange true (processChange true exTrigSt0 exC4plain).1 exC4plain).2) = 1 ∧
    ∃ rest, (processChange true exTrigSt0 exC4plain).2 =
      TrigAction.markProcessed (orderKeyOf exC4plain) exC4plain.fournisseurId ::
        TrigAction.sendMail exC4plain.id :: rest :=
  notification_dedup_amended true true exTrigSt0 exC4plain exC4plain (Or.inl rfl)
    (by decide) (by decide) (by decide)

/-- Counterexample to C4 as stated: two identical change-feed events whose
order id `a-b` contains a hyphen are both processed — the ledger check
misses (it queries the id's first `'-'`-separated component `a`), so two
mail-send invocations and two notification-log entries result and the second
event is not skipped. -/
theorem notification_dedup_hyphen_counterexample :
    countSendMail ((processChange true exTrigSt0 exC4hyphen).2 ++
      (processChange true (processChange true exTrigSt0 exC4hyphen).1 exC4hyphen).2) = 2 ∧
    (processChange true (processChange true exTrigSt0 exC4hyphen).1
      exC4hyphen).1.notificationLogs.length = 2 ∧
    (processChange true (processChange true exTrigSt0 exC4hyphen).1 exC4hyphen).2 ≠ [] := by
  decide

/-- Witness for the amended C6 at the unrecognized status `archived`. -/
theorem unrecognized_status_fallback_witness :
    generateEmailSubject exC6order "ORDER001" =
      getStatusEmoji exC6order.status ++ " COMMANDE #" ++ "ORDER001" ++ " - " ++
        jsToUpperCase exC6order.status ∧
    (sendOrderNotification exC6env exC6order).1 =
      (match getSupplierInfo exC6env.suppliers exC6env.users exC6order.fournisseurId with
       | none => false
       | some _ => sendEmailViaBackend exC6env) :=
  unrecognized_status_fallback exC6env exC6order "ORDER001" (by decide)

/-- Counterexample to C6 as stated: for the unrecognized status `archived`
the dispatcher renders the generic default subject template and the send
succeeds — template selection is not a hard failure. -/
theorem unrecognized_status_counterexample :
    generateEmailSubject exC6order "ORDER001" = "📋 COMMANDE #ORDER001 - ARCHIVED" ∧
    (sendOrderNotification exC6env exC6order).1 = true := by
  decide

/-- Witness for the amended C7. -/
theorem notFound_handling_amended_witness :
    updateSubOrderStatus "" exC7st "SO1" "confirmed" none "t1" =
      Except.error "Failed to update order status" ∧
    decrementProductStock [] "P1" 1 "t1" = (false, []) ∧
    syncMasterOrderStatus "" exC7st "M9" "t1" = Except.ok (exC7st, []) :=
  ⟨notFound_handling_amended.1 "" exC7st "SO1" "confirmed" none "t1" (by decide),
   notFound_handling_amended.2.1 [] "P1" 1 "t1" (by decide),
   notFound_handling_amended.2.2 "" exC7st "M9" "t1" (by decide)⟩

/-- Counterexample to C7 as stated: calling `updateSubOrderStatus` with a
sub-order id absent from the store raises the rethrown error
`Failed to update order status` to the caller instead of returning a
boolean-false/empty result. -/
theorem missing_subOrder_throws_counterexample :
    updateSubOrderStatus "" exC7st "SO1" "confirmed" none "t1" =
      Except.error "Failed to update order status" := by
  rfl

end Optimizi
